import Mathlib

/-!
Verification of `miceinput.py`, a diagnostic utility that reads 3-byte
mouse records from a device file and prints a decoded line per record.

The shallow embedding below translates the script into Lean:
machine bytes are `Nat` values below 256, the signed interpretation of
`struct.unpack "bb"` is an explicit function on `Nat`, the byte stream
is a `List Nat`, and the fallible read is an `Except` value.
-/

/-- Signed interpretation of one byte, as performed by
`struct.unpack("bb", buf[1:])` in the source: values 0..127 map to
themselves, 128..255 map to value - 256. -/
def signedByte (b : Nat) : Int :=
  if b < 128 then (b : Int) else (b : Int) - 256

/-- Spec-side signed 8-bit interpretation, written from the words of the
spec rather than the source: the representative of b modulo 256 lying in
the range [-128, 127]. Used to compare the source decoding against the
specification. -/
def specSigned (b : Nat) : Int :=
  ((b : Int) + 128) % 256 - 128

/-- The decoded fields of one record, mirroring the local variables of
`getMouseEvent`: `bLeft = button & 0x1` (an integer in the source),
`bMiddle = (button & 0x4) > 0`, `bRight = (button & 0x2) > 0`, and the
two signed deltas. -/
structure MouseEvent where
  bLeft : Nat
  bMiddle : Bool
  bRight : Bool
  x : Int
  y : Int
deriving DecidableEq

/-- Decoding of the three record bytes, as in lines 13..17 of the
source. -/
def decodeEvent (b0 b1 b2 : Nat) : MouseEvent :=
  { bLeft := b0 &&& 0x1
    bMiddle := decide (b0 &&& 0x4 > 0)
    bRight := decide (b0 &&& 0x2 > 0)
    x := signedByte b1
    y := signedByte b2 }

/-- Horizontal glyph selection: starts as a blank, becomes a left arrow
for negative x and a right arrow for positive x. -/
def xarrow (x : Int) : String :=
  if x < 0 then "←" else if x > 0 then "→" else " "

/-- Vertical glyph selection: starts as a blank, becomes an up arrow for
negative y and a down arrow for positive y. -/
def yarrow (y : Int) : String :=
  if y < 0 then "↑" else if y > 0 then "↓" else " "

/-- The line printed for one record, following the format string of line
28 of the source: horizontal glyph, one space, vertical glyph, two
spaces, then the parenthesized deltas. -/
def getMouseEventLine (b0 b1 b2 : Nat) : String :=
  xarrow (decodeEvent b0 b1 b2).x ++ " " ++ yarrow (decodeEvent b0 b1 b2).y ++
    "  (x: " ++ toString (decodeEvent b0 b1 b2).x ++
    ", y: " ++ toString (decodeEvent b0 b1 b2).y ++ ")"

/-- The one error kind of the program: any short read (end of stream or
I/O failure) raises an unhandled exception and kills the process. -/
inductive ReadError where
  | readError
deriving DecidableEq

/-- One call of `getMouseEvent` on the remaining byte stream: reading 3
bytes, decoding, and printing. A stream holding fewer than 3 bytes makes
the call fail before anything is printed (short `buf` raises on
`buf[0]` or on `struct.unpack`); otherwise the call consumes exactly the
first 3 bytes, prints one line and returns. -/
def getMouseEvent : List Nat → Except ReadError (MouseEvent × String × List Nat)
  | b0 :: b1 :: b2 :: rest =>
      Except.ok (decodeEvent b0 b1 b2, getMouseEventLine b0 b1 b2, rest)
  | _ => Except.error ReadError.readError

/-- The unbounded main loop over a byte stream: the lines printed, in
order, and the error that finally terminates the process (every finite
stream eventually yields a short read). -/
def runMain : List Nat → List String × ReadError
  | b0 :: b1 :: b2 :: rest =>
      (getMouseEventLine b0 b1 b2 :: (runMain rest).1, (runMain rest).2)
  | _ => ([], ReadError.readError)

/-- Device identifier from the argument vector (program name included),
as in line 31 of the source: the first positional argument when present,
otherwise the aggregate device "mice". -/
def deviceOf : List String → String
  | _ :: d :: _ => d
  | _ => "mice"

/-- Path opened by the program, line 32 of the source. -/
def devicePath (argv : List String) : String :=
  "/dev/input/" ++ deviceOf argv

/-- Mode the device path is opened with, line 32 of the source. -/
def openMode : String := "rb"

/-- On actual bytes the source decoding agrees with the spec-side signed
interpretation. -/
theorem signedByte_eq_specSigned (b : Nat) (h : b < 256) :
    signedByte b = specSigned b := by
  unfold signedByte specSigned
  split <;> omega

/-- The horizontal glyph is blank exactly for zero horizontal motion. -/
theorem xarrow_blank (v : Int) : xarrow v = " " ↔ v = 0 := by
  constructor
  · intro h
    by_contra hv
    rcases lt_or_gt_of_ne hv with hlt | hgt
    · rw [xarrow, if_pos hlt] at h
      exact absurd h (by decide)
    · rw [xarrow, if_neg (by omega), if_pos hgt] at h
      exact absurd h (by decide)
  · intro h
    subst h
    decide

/-- The vertical glyph is blank exactly for zero vertical motion. -/
theorem yarrow_blank (v : Int) : yarrow v = " " ↔ v = 0 := by
  constructor
  · intro h
    by_contra hv
    rcases lt_or_gt_of_ne hv with hlt | hgt
    · rw [yarrow, if_pos hlt] at h
      exact absurd h (by decide)
    · rw [yarrow, if_neg (by omega), if_pos hgt] at h
      exact absurd h (by decide)
  · intro h
    subst h
    decide

/-- C1: for every byte triple, the decoded event has
left pressed exactly when bit 0 of byte 0 is set, right pressed exactly
when bit 1 is set, middle pressed exactly when bit 2 is set, and the
deltas equal to the signed 8-bit interpretations of bytes 1 and 2. -/
theorem C1_decoded_fields (a0 a1 a2 : Nat)
    (h0 : a0 < 256) (h1 : a1 < 256) (h2 : a2 < 256) :
    ((decodeEvent a0 a1 a2).bLeft ≠ 0 ↔ a0 &&& 1 ≠ 0) ∧
    ((decodeEvent a0 a1 a2).bRight = true ↔ a0 &&& 2 ≠ 0) ∧
    ((decodeEvent a0 a1 a2).bMiddle = true ↔ a0 &&& 4 ≠ 0) ∧
    (decodeEvent a0 a1 a2).x = specSigned a1 ∧
    (decodeEvent a0 a1 a2).y = specSigned a2 := by
  refine ⟨Iff.rfl, ?_, ?_, ?_, ?_⟩
  · simp [decodeEvent, Nat.pos_iff_ne_zero]
  · simp [decodeEvent, Nat.pos_iff_ne_zero]
  · exact signedByte_eq_specSigned a1 h1
  · exact signedByte_eq_specSigned a2 h2

/-- C1 witness: the decoded-field correspondence at the concrete triple
(5, 128, 127). -/
theorem C1_decoded_fields_witness :
    ((decodeEvent 5 128 127).bLeft ≠ 0 ↔ 5 &&& 1 ≠ 0) ∧
    ((decodeEvent 5 128 127).bRight = true ↔ 5 &&& 2 ≠ 0) ∧
    ((decodeEvent 5 128 127).bMiddle = true ↔ 5 &&& 4 ≠ 0) ∧
    (decodeEvent 5 128 127).x = specSigned 128 ∧
    (decodeEvent 5 128 127).y = specSigned 127 :=
  C1_decoded_fields 5 128 127 (by decide) (by decide) (by decide)

/-- C2 counterexample: the bytes [0x00, 0x05, 0x00] do not print the
line claimed by the spec example, which shows only three spaces between
the rightward glyph and the opening parenthesis. -/
theorem C2_spacing_counterexample :
    getMouseEventLine 0x00 0x05 0x00 ≠ "→   (x: 5, y: 0)" := by
  decide

/-- C2 (amended): the printed line is the horizontal glyph, a space, the
vertical glyph, then two spaces and the parenthesized literal deltas;
each glyph is blank exactly when its delta is zero; and the bytes
[0x00, 0x05, 0x00] print the line with a rightward glyph and four
spaces before the parenthesis. -/
theorem C2_line_format (a0 a1 a2 : Nat) (h1 : a1 < 256) (h2 : a2 < 256) :
    getMouseEventLine a0 a1 a2 =
      xarrow (specSigned a1) ++ " " ++ yarrow (specSigned a2) ++
        "  (x: " ++ toString (specSigned a1) ++
        ", y: " ++ toString (specSigned a2) ++ ")" ∧
    (xarrow (specSigned a1) = " " ↔ specSigned a1 = 0) ∧
    (yarrow (specSigned a2) = " " ↔ specSigned a2 = 0) ∧
    getMouseEventLine 0x00 0x05 0x00 = "→    (x: 5, y: 0)" := by
  have hx := signedByte_eq_specSigned a1 h1
  have hy := signedByte_eq_specSigned a2 h2
  refine ⟨?_, xarrow_blank _, yarrow_blank _, by decide⟩
  simp only [getMouseEventLine, decodeEvent, hx, hy]

/-- C2 witness: the amended line format at the concrete triple
(0, 5, 0). -/
theorem C2_line_format_witness :
    getMouseEventLine 0 5 0 =
      xarrow (specSigned 5) ++ " " ++ yarrow (specSigned 0) ++
        "  (x: " ++ toString (specSigned 5) ++
        ", y: " ++ toString (specSigned 0) ++ ")" ∧
    (xarrow (specSigned 5) = " " ↔ specSigned 5 = 0) ∧
    (yarrow (specSigned 0) = " " ↔ specSigned 0 = 0) ∧
    getMouseEventLine 0x00 0x05 0x00 = "→    (x: 5, y: 0)" :=
  C2_line_format 0 5 0 (by decide) (by decide)

/-- C3: the printed line does not reflect the button flags. The triples
(1, 0, 0) and (0, 0, 0) decode to different button states, yet the
program prints the identical line for both: the decoded flags are
computed on lines 14..16 of the source and never used by the print on
line 28. -/
theorem C3_buttons_absent_from_output :
    (decodeEvent 0x01 0 0).bLeft ≠ (decodeEvent 0x00 0 0).bLeft ∧
    decodeEvent 0x01 0 0 ≠ decodeEvent 0x00 0 0 ∧
    getMouseEventLine 0x01 0 0 = getMouseEventLine 0x00 0 0 := by
  decide

/-- C4: byte 0x80 decodes to delta -128 with the leftward glyph, byte
0x7F to delta 127 with the rightward glyph, and byte 0x00 gives a blank
horizontal glyph. -/
theorem C4_boundary_bytes :
    (decodeEvent 0 0x80 0).x = -128 ∧
    xarrow (decodeEvent 0 0x80 0).x = "←" ∧
    (decodeEvent 0 0x7F 0).x = 127 ∧
    xarrow (decodeEvent 0 0x7F 0).x = "→" ∧
    xarrow (decodeEvent 0 0x00 0).x = " " := by
  decide

/-- C5: decoding is deterministic: equal 3-byte inputs give equal
decoded events and equal printed lines. -/
theorem C5_deterministic (a0 a1 a2 c0 c1 c2 : Nat)
    (h : (a0, a1, a2) = (c0, c1, c2)) :
    decodeEvent a0 a1 a2 = decodeEvent c0 c1 c2 ∧
    getMouseEventLine a0 a1 a2 = getMouseEventLine c0 c1 c2 := by
  injection h with h0 h
  injection h with h1 h2
  subst h0; subst h1; subst h2
  exact ⟨rfl, rfl⟩

/-- C5 witness: determinism applied at the concrete triple (1, 2, 3). -/
theorem C5_deterministic_witness :
    decodeEvent 1 2 3 = decodeEvent 1 2 3 ∧
    getMouseEventLine 1 2 3 = getMouseEventLine 1 2 3 :=
  C5_deterministic 1 2 3 1 2 3 rfl

/-- C6: the bytes [0x01, 0xFB, 0x03] decode to deltas -5 and 3 with the
left button pressed, and print the leftward and downward glyphs with the
values x: -5 and y: 3. -/
theorem C6_scenario_two :
    (decodeEvent 0x01 0xFB 0x03).x = -5 ∧
    (decodeEvent 0x01 0xFB 0x03).y = 3 ∧
    (decodeEvent 0x01 0xFB 0x03).bLeft ≠ 0 ∧
    xarrow (decodeEvent 0x01 0xFB 0x03).x = "←" ∧
    yarrow (decodeEvent 0x01 0xFB 0x03).y = "↓" ∧
    getMouseEventLine 0x01 0xFB 0x03 = "← ↓  (x: -5, y: 3)" := by
  decide

/-- C7: with fewer than 3 bytes left on the stream, the read fails with
ReadError, nothing is printed for the failed read, and the loop ends in
the error termination. -/
theorem C7_short_read_fails (s : List Nat) (h : s.length < 3) :
    getMouseEvent s = Except.error ReadError.readError ∧
    (runMain s).1 = [] ∧ (runMain s).2 = ReadError.readError := by
  rcases s with _ | ⟨a, _ | ⟨b, _ | ⟨c, t⟩⟩⟩
  · exact ⟨rfl, rfl, rfl⟩
  · exact ⟨rfl, rfl, rfl⟩
  · exact ⟨rfl, rfl, rfl⟩
  · simp only [List.length_cons] at h
    omega

/-- C7 witness: the short-read failure at the one-byte stream [1]. -/
theorem C7_short_read_fails_witness :
    getMouseEvent [1] = Except.error ReadError.readError ∧
    (runMain [1]).1 = [] ∧ (runMain [1]).2 = ReadError.readError :=
  C7_short_read_fails [1] (by decide)

/-- C8: with no positional argument the program opens the aggregate
device "mice"; with one it opens that identifier; the path is formed by
prepending the fixed base directory, and the file is opened for binary
reading. -/
theorem C8_cli_device (prog d : String) (rest : List String) :
    devicePath [prog] = "/dev/input/mice" ∧
    devicePath (prog :: d :: rest) = "/dev/input/" ++ d ∧
    openMode = "rb" :=
  ⟨rfl, rfl, rfl⟩

/-- C9: each event is built from exactly the first 3 bytes of the
stream; the loop consumes disjoint successive 3-byte windows in arrival
order, leaving the remainder untouched for the next iteration. -/
theorem C9_record_windows (b0 b1 b2 : Nat) (rest : List Nat) :
    getMouseEvent (b0 :: b1 :: b2 :: rest) =
      Except.ok (decodeEvent b0 b1 b2, getMouseEventLine b0 b1 b2, rest) ∧
    (runMain (b0 :: b1 :: b2 :: rest)).1 =
      getMouseEventLine b0 b1 b2 :: (runMain rest).1 :=
  ⟨rfl, rfl⟩

/-- C10: decoding is total on complete records: every 3-byte record,
whatever its byte values, decodes and prints exactly one line, and the
failure branch is taken exactly when fewer than 3 bytes remain. -/
theorem C10_decode_total (b0 b1 b2 : Nat) (rest s : List Nat) :
    getMouseEvent (b0 :: b1 :: b2 :: rest) =
      Except.ok (decodeEvent b0 b1 b2, getMouseEventLine b0 b1 b2, rest) ∧
    (getMouseEvent s = Except.error ReadError.readError ↔ s.length < 3) := by
  refine ⟨rfl, ?_⟩
  rcases s with _ | ⟨a, _ | ⟨b, _ | ⟨c, t⟩⟩⟩ <;> simp [getMouseEvent]
